import Mathlib

/-!
Shallow embedding of `src/roy/hooks/useQuickAuth.ts`.

The hook `useQuickAuth` manages an `AuthState` and exposes `signIn`,
`signOut` and a derived `isAuthenticated` flag.  `signIn` has two paths:
an embedded "miniapp" path (host SDK sign-in plus backend verification)
that falls back, on failure, to a browser path (wallet connector with a
bounded polling loop, message signing, backend verification).

External calls (host SDK, both fetches, the connector state, every read
of the address ref inside the polling loop) are modelled as inputs in an
`Env` record; `signIn` then becomes a pure function from `Env` and the
prior `AuthState` to an outcome record carrying the final state, the
thrown error (if any) and trace flags recording which actions ran.
JavaScript string truthiness (`""` is falsy) is modelled explicitly by
`truthy`.
-/

namespace QuickAuth

/-- The `userData` field of `AuthState`: `{ fid?: number; address?: string }`. -/
structure UserData where
  fid : Option Nat
  address : Option String
deriving Repr, DecidableEq

/-- `AuthState` from `useQuickAuth.ts` lines 9-13. -/
structure AuthState where
  token : Option String
  userData : Option UserData
  isLoading : Bool
deriving Repr, DecidableEq

/-- The initial state passed to `useState` (lines 37-41). -/
def initialAuthState : AuthState :=
  { token := none, userData := none, isLoading := false }

/-- JavaScript truthiness of a `string | null | undefined` value:
`null`/`undefined` and the empty string are falsy. -/
def truthy : Option String → Bool
  | none => false
  | some s => s ≠ ""

/-- `a || b` for `a : string | null` and `b : string | undefined`. -/
def jsOrOpt (a b : Option String) : Option String :=
  if truthy a then a else b

/-- `a || b` for an optional string `a` and a string `b`
(line 172: `data.token || signature`). -/
def jsOrStr (a : Option String) (b : String) : String :=
  match a with
  | some s => if s = "" then b else s
  | none => b

/-- Recognized fields of the backend `/api/auth` JSON response body:
`token` (string, optional), `fid` (number, optional),
`address` (string, optional). -/
structure BackendData where
  token : Option String
  fid : Option Nat
  address : Option String
deriving Repr, DecidableEq

/-- Outcome of one `fetch` call: the promise rejects (`netError`, which
also covers a rejecting `response.json()`), or a response arrives with
its `ok` flag and parsed body. -/
inductive FetchResult where
  | netError (e : String)
  | response (ok : Bool) (data : BackendData)
deriving Repr, DecidableEq

/-- Result of `sdk.actions.signIn`: `{ message, signature }`. -/
structure HostSignInResult where
  message : String
  signature : String
deriving Repr, DecidableEq

/-- Errors `signIn` can throw, by their `throw` site in the source. -/
inductive AuthError where
  /-- an error thrown by an external call and rethrown (network failure,
  rejected signature request, ...) -/
  | external (e : String)
  /-- `new Error('Authentication failed')` on a non-ok response
  (lines 98 and 168) -/
  | authenticationFailed
  /-- `new Error('Wallet connection not available. ...')` (line 127) -/
  | walletConnectionNotAvailable
  /-- `new Error('Wallet connection failed. ...')` (line 140) -/
  | walletConnectionFailed
  /-- `new Error('Wallet address not available')` (line 146) -/
  | walletAddressNotAvailable
deriving Repr, DecidableEq

/-- The environment of one `signIn` invocation: the detection result and
the outcome of every external interaction it may perform. -/
structure Env where
  /-- result of `isFarcasterMiniapp()` -/
  isMiniapp : Bool
  /-- result of `sdk.ethereum.request({ method: 'eth_requestAccounts' })`:
  a thrown error, or a possibly-null array of account strings -/
  ethAccounts : Except String (Option (List String))
  /-- result of `sdk.actions.signIn({ nonce, acceptAuthAddress: true })` -/
  hostSignIn : Except String HostSignInResult
  /-- outcome of the embedded-path `fetch` to `/api/auth` -/
  embeddedFetch : FetchResult
  /-- `isConnected` from `useAccount()` -/
  isConnected : Bool
  /-- `addressRef.current` as read at line 120 -/
  address0 : Option String
  /-- whether `appKit?.open` is available (line 124) -/
  appKitOpenAvailable : Bool
  /-- `addressRef.current` as read at poll iteration `i` (line 135) -/
  polls : Nat → Option String
  /-- result of `signMessageAsync({ message })` -/
  signMessage : Except String String
  /-- outcome of the browser-path `fetch` to `/api/auth` -/
  browserFetch : FetchResult

/-- `walletAddress` after lines 65-74: `accounts[0]` when the account
request succeeded with a non-empty array, else `null`. -/
def embeddedWalletAddress (acc : Except String (Option (List String))) : Option String :=
  match acc with
  | .error _ => none
  | .ok none => none
  | .ok (some accounts) => if accounts.length > 0 then accounts.head? else none

/-- The embedded (miniapp) attempt, lines 63-116: `some finalState` when
it reaches the success `setAuthState` and returns early; `none` when any
step of the inner `try` throws, which the inner `catch` swallows so that
control falls through to the browser path. -/
def embeddedAttempt (env : Env) : Option AuthState :=
  let walletAddress := embeddedWalletAddress env.ethAccounts
  match env.hostSignIn with
  | .error _ => none
  | .ok r =>
    match env.embeddedFetch with
    | .netError _ => none
    | .response ok data =>
      if ok then
        some { token := some r.signature
               userData := some { fid := data.fid
                                  address := jsOrOpt walletAddress data.address }
               isLoading := false }
      else none

/-- The polling loop of lines 132-137, with `fuel` the number of
iterations the guard `attempts < 100` still permits.  Each iteration
reads `addressRef.current` (modelled by `polls attempts`) and increments
`attempts`.  Returns the final `currentAddress` and final `attempts`. -/
def pollLoop (polls : Nat → Option String) : Nat → Nat → Option String → Option String × Nat
  | 0, attempts, cur => (cur, attempts)
  | fuel + 1, attempts, cur =>
    if truthy cur then (cur, attempts)
    else pollLoop polls fuel (attempts + 1) (polls attempts)

/-- Outcome of a `signIn` invocation: the final `AuthState`, the error
rethrown to the caller (`none` when `signIn` resolves), and a trace:
whether control reached the browser path (line 120), whether
`appKit.open()` was called, how many polling iterations ran, and whether
`signMessageAsync` was requested. -/
structure SignInOutcome where
  state : AuthState
  error : Option AuthError
  tookBrowserPath : Bool
  openedUI : Bool
  pollAttempts : Nat
  signRequested : Bool
deriving Repr, DecidableEq

/-- A throw inside the browser path, as the outer `catch` (lines
179-183) leaves it: the state at catch time is the entry state with
`isLoading` reset to `false`, and the error is rethrown. -/
def throwOutcome (s1 : AuthState) (e : AuthError) (opened : Bool) (attempts : Nat)
    (signReq : Bool) : SignInOutcome :=
  { state := { s1 with isLoading := false }
    error := some e
    tookBrowserPath := true
    openedUI := opened
    pollAttempts := attempts
    signRequested := signReq }

/-- Lines 144-178: the browser path once `currentAddress` is settled
(`cur`): the dead-code address check, the signature request, the backend
fetch, and the success `setAuthState` with
`userData = { address: currentAddress, ...data }` — the spread places the
backend fields last, so `data.address`, when present, overrides `cur`. -/
def afterConnect (env : Env) (s1 : AuthState) (cur : Option String) (opened : Bool)
    (attempts : Nat) : SignInOutcome :=
  if !(truthy cur) then
    throwOutcome s1 .walletAddressNotAvailable opened attempts false
  else
    match env.signMessage with
    | .error e => throwOutcome s1 (.external e) opened attempts true
    | .ok signature =>
      match env.browserFetch with
      | .netError e => throwOutcome s1 (.external e) opened attempts true
      | .response ok data =>
        if ok then
          { state := { token := some (jsOrStr data.token signature)
                       userData := some { fid := data.fid
                                          address := some (data.address.getD (cur.getD "")) }
                       isLoading := false }
            error := none
            tookBrowserPath := true
            openedUI := opened
            pollAttempts := attempts
            signRequested := true }
        else throwOutcome s1 .authenticationFailed opened attempts true

/-- Lines 139-178 given the result `pr` of the polling loop: a still
absent (falsy) address is the `walletConnectionFailed` throw of line
140, otherwise the path continues with the polled address. -/
def browserAfterPoll (env : Env) (s1 : AuthState) (pr : Option String × Nat) : SignInOutcome :=
  if truthy pr.1 then
    afterConnect env s1 pr.1 true pr.2
  else
    throwOutcome s1 .walletConnectionFailed true pr.2 false

/-- Lines 119-178: the browser / wallet-connector path.  If there is no
connection or no address, open the AppKit modal (or throw a
configuration error when it is unavailable) and poll for the address up
to 100 times. -/
def browserPath (env : Env) (s1 : AuthState) : SignInOutcome :=
  if !env.isConnected || !(truthy env.address0) then
    if env.appKitOpenAvailable then
      browserAfterPoll env s1 (pollLoop env.polls 100 0 env.address0)
    else
      throwOutcome s1 .walletConnectionNotAvailable false 0 false
  else
    afterConnect env s1 env.address0 false 0

/-- Line 59: the first `setAuthState` of `signIn` sets `isLoading` to
`true`, keeping `token` and `userData`. -/
def signInStart (prev : AuthState) : AuthState :=
  { prev with isLoading := true }

/-- The whole of `signIn` (lines 57-184): set loading, try the embedded
path when in a miniapp (its success returns early; its failure falls
through), else/then run the browser path; the outer `catch` resets
`isLoading` and rethrows. -/
def signIn (env : Env) (prev : AuthState) : SignInOutcome :=
  if env.isMiniapp then
    match embeddedAttempt env with
    | some final =>
      { state := final, error := none, tookBrowserPath := false
        openedUI := false, pollAttempts := 0, signRequested := false }
    | none => browserPath env (signInStart prev)
  else
    browserPath env (signInStart prev)

/-- Outcome of `signOut` (lines 198-207): the reset state and whether
`disconnect()` was requested. -/
structure SignOutOutcome where
  state : AuthState
  disconnectRequested : Bool
deriving Repr, DecidableEq

/-- `signOut`: disconnect only when not in a miniapp and connected, then
unconditionally reset the state. -/
def signOut (isMiniapp isConnected : Bool) : SignOutOutcome :=
  { state := { token := none, userData := none, isLoading := false }
    disconnectRequested := !isMiniapp && isConnected }

/-- Line 213: `isMiniapp ? !!authState.token : (isConnected && !!authState.token)`. -/
def isAuthenticated (isMiniapp isConnected : Bool) (token : Option String) : Bool :=
  if isMiniapp then truthy token else isConnected && truthy token

/-- `signIn` throws exactly when the host sign-in call or the backend
verification of the embedded path fails (lines 78, 97-99): the fetch
promise rejecting or a non-ok response. -/
def embeddedFails (env : Env) : Prop :=
  (∃ e, env.hostSignIn = .error e) ∨
  (∃ e, env.embeddedFetch = .netError e) ∨
  (∃ data, env.embeddedFetch = .response false data)

/-! ## Helper lemmas -/

theorem aux_afterConnect_isLoading (env : Env) (s1 : AuthState) (cur : Option String)
    (opened : Bool) (attempts : Nat) :
    (afterConnect env s1 cur opened attempts).state.isLoading = false := by
  unfold afterConnect throwOutcome
  repeat' split
  all_goals rfl

theorem aux_afterConnect_pollAttempts (env : Env) (s1 : AuthState) (cur : Option String)
    (opened : Bool) (attempts : Nat) :
    (afterConnect env s1 cur opened attempts).pollAttempts = attempts := by
  unfold afterConnect throwOutcome
  repeat' split
  all_goals rfl

theorem aux_afterConnect_cases (env : Env) (s1 : AuthState) (cur : Option String)
    (opened : Bool) (attempts : Nat) :
    (afterConnect env s1 cur opened attempts).error = none ∨
    (afterConnect env s1 cur opened attempts).state = { s1 with isLoading := false } := by
  unfold afterConnect throwOutcome
  repeat' split
  all_goals simp

theorem aux_browserAfterPoll_isLoading (env : Env) (s1 : AuthState)
    (pr : Option String × Nat) :
    (browserAfterPoll env s1 pr).state.isLoading = false := by
  unfold browserAfterPoll throwOutcome
  split
  · apply aux_afterConnect_isLoading
  · rfl

theorem aux_browserAfterPoll_cases (env : Env) (s1 : AuthState)
    (pr : Option String × Nat) :
    (browserAfterPoll env s1 pr).error = none ∨
    (browserAfterPoll env s1 pr).state = { s1 with isLoading := false } := by
  unfold browserAfterPoll throwOutcome
  split
  · apply aux_afterConnect_cases
  · simp

theorem aux_browserPath_isLoading (env : Env) (s1 : AuthState) :
    (browserPath env s1).state.isLoading = false := by
  unfold browserPath throwOutcome
  repeat' split
  all_goals first
    | rfl
    | apply aux_afterConnect_isLoading
    | apply aux_browserAfterPoll_isLoading

theorem aux_browserPath_cases (env : Env) (s1 : AuthState) :
    (browserPath env s1).error = none ∨
    (browserPath env s1).state = { s1 with isLoading := false } := by
  unfold browserPath throwOutcome
  repeat' split
  all_goals first
    | apply aux_afterConnect_cases
    | apply aux_browserAfterPoll_cases
    | simp

theorem aux_embeddedAttempt_isLoading (env : Env) (s : AuthState)
    (h : embeddedAttempt env = some s) : s.isLoading = false := by
  unfold embeddedAttempt at h
  repeat' split at h
  all_goals simp_all
  rw [← h]

theorem aux_embeddedAttempt_none (env : Env) (h : embeddedFails env) :
    embeddedAttempt env = none := by
  unfold embeddedAttempt
  rcases h with ⟨e, he⟩ | ⟨e, he⟩ | ⟨d, hd⟩
  · rw [he]
  · cases hh : env.hostSignIn with
    | error e2 => rfl
    | ok r => rw [he]
  · cases hh : env.hostSignIn with
    | error e2 => rfl
    | ok r => rw [hd]; simp

theorem aux_pollLoop_le (polls : Nat → Option String) (fuel attempts : Nat)
    (cur : Option String) :
    (pollLoop polls fuel attempts cur).2 ≤ attempts + fuel := by
  induction fuel generalizing attempts cur with
  | zero => simp [pollLoop]
  | succ n ih =>
    unfold pollLoop
    split
    · simp
    · have h := ih (attempts + 1) (polls attempts)
      omega

theorem aux_pollLoop_allFalsy (polls : Nat → Option String) (fuel attempts : Nat)
    (cur : Option String) (hcur : truthy cur = false)
    (hall : ∀ i, attempts ≤ i → i < attempts + fuel → truthy (polls i) = false) :
    truthy (pollLoop polls fuel attempts cur).1 = false ∧
    (pollLoop polls fuel attempts cur).2 = attempts + fuel := by
  induction fuel generalizing attempts cur with
  | zero => simpa [pollLoop] using hcur
  | succ n ih =>
    unfold pollLoop
    rw [hcur]
    simp only [Bool.false_eq_true, if_false]
    have h1 : truthy (polls attempts) = false := hall attempts le_rfl (by omega)
    have h2 := ih (attempts + 1) (polls attempts) h1
      (fun i hi1 hi2 => hall i (by omega) (by omega))
    exact ⟨h2.1, by rw [h2.2]; omega⟩

theorem aux_pollLoop_hit (polls : Nat → Option String) (k : Nat) (fuel attempts : Nat)
    (cur : Option String) (hcur : truthy cur = false) (hk : k < fuel)
    (hbefore : ∀ j, j < k → truthy (polls (attempts + j)) = false)
    (hhit : truthy (polls (attempts + k)) = true) :
    pollLoop polls fuel attempts cur = (polls (attempts + k), attempts + k + 1) := by
  induction k generalizing fuel attempts cur with
  | zero =>
    cases fuel with
    | zero => omega
    | succ n =>
      unfold pollLoop
      rw [hcur]
      simp only [Bool.false_eq_true, if_false]
      have hh : truthy (polls attempts) = true := by simpa using hhit
      cases n with
      | zero => simp [pollLoop]
      | succ m =>
        unfold pollLoop
        rw [hh]
        simp

  | succ k ih =>
    cases fuel with
    | zero => omega
    | succ n =>
      unfold pollLoop
      rw [hcur]
      simp only [Bool.false_eq_true, if_false]
      have h0 : truthy (polls attempts) = false := by simpa using hbefore 0 (by omega)
      have heq : ∀ j, j < k → truthy (polls (attempts + 1 + j)) = false := by
        intro j hj
        have := hbefore (j + 1) (by omega)
        simpa [Nat.add_assoc, Nat.add_comm 1 j] using this
      have hhit2 : truthy (polls (attempts + 1 + k)) = true := by
        have h := hhit
        have : attempts + (k + 1) = attempts + 1 + k := by omega
        rwa [this] at h
      have hres := ih n (attempts + 1) (polls attempts) h0 (by omega) heq hhit2
      rw [hres]
      have h1 : attempts + 1 + k = attempts + (k + 1) := by omega
      rw [h1]

/-! ## Claims -/

/-- C4: every `signIn` invocation sets `isLoading` to `true` at entry and
ends, on every outcome (embedded success, browser success, every thrown
error), with `isLoading = false`; it is never left `true` after the
invocation settles. -/
theorem claim_C4_isLoading (env : Env) (prev : AuthState) :
    (signInStart prev).isLoading = true ∧ (signIn env prev).state.isLoading = false := by
  refine ⟨rfl, ?_⟩
  unfold signIn
  split
  · cases hemb : embeddedAttempt env with
    | none => simp only [hemb]; apply aux_browserPath_isLoading
    | some s => simp only [hemb]; exact aux_embeddedAttempt_isLoading env s hemb
  · apply aux_browserPath_isLoading

/-- C5: `signOut` always resets the state to the initial empty state
(`token = null`, `userData = null`, `isLoading = false`), and the
connector disconnect action is requested iff the environment is not
embedded and a wallet connection is active. -/
theorem claim_C5_signOut (isMiniapp isConnected : Bool) :
    (signOut isMiniapp isConnected).state =
      { token := none, userData := none, isLoading := false } ∧
    ((signOut isMiniapp isConnected).disconnectRequested = true ↔
      (isMiniapp = false ∧ isConnected = true)) := by
  refine ⟨rfl, ?_⟩
  cases isMiniapp <;> cases isConnected <;> simp [signOut]

/-- C6: the exported `isAuthenticated` flag equals "token present" in the
embedded environment and "wallet connected and token present" otherwise
(for tokens that are not the degenerate empty string, which JavaScript
`!!` treats as absent). -/
theorem claim_C6_isAuthenticated (isMiniapp isConnected : Bool) (token : Option String)
    (h : token = none ∨ ∃ s, token = some s ∧ s ≠ "") :
    isAuthenticated isMiniapp isConnected token =
      (if isMiniapp then token.isSome else isConnected && token.isSome) := by
  rcases h with h | ⟨s, rfl, hs⟩
  · subst h
    cases isMiniapp <;> cases isConnected <;> simp [isAuthenticated, truthy]
  · cases isMiniapp <;> cases isConnected <;> simp [isAuthenticated, truthy, hs]

/-- C6 witness: evaluated at a concrete non-empty token. -/
theorem claim_C6_witness : isAuthenticated true false (some "tok") = true := by
  have h := claim_C6_isAuthenticated true false (some "tok")
    (Or.inr ⟨"tok", rfl, by decide⟩)
  simpa using h

/-- C7: in a non-embedded environment with no connection (or no address)
and no available connector UI, `signIn` throws the configuration error
and leaves `token` and `userData` unchanged with `isLoading = false`. -/
theorem claim_C7_configError (env : Env) (prev : AuthState)
    (hm : env.isMiniapp = false)
    (hconn : env.isConnected = false ∨ truthy env.address0 = false)
    (hopen : env.appKitOpenAvailable = false) :
    (signIn env prev).error = some AuthError.walletConnectionNotAvailable ∧
    (signIn env prev).state =
      { token := prev.token, userData := prev.userData, isLoading := false } := by
  have hcond : (!env.isConnected || !(truthy env.address0)) = true := by
    rcases hconn with h | h <;> simp [h]
  simp [signIn, hm, browserPath, hcond, hopen, throwOutcome, signInStart]

def envC7 : Env :=
  { isMiniapp := false
    ethAccounts := .ok none
    hostSignIn := .error "unused"
    embeddedFetch := .netError "unused"
    isConnected := false
    address0 := none
    appKitOpenAvailable := false
    polls := fun _ => none
    signMessage := .error "unused"
    browserFetch := .netError "unused" }

/-- C7 witness: a concrete non-embedded, unconfigured environment. -/
theorem claim_C7_witness :
    (signIn envC7 initialAuthState).error = some AuthError.walletConnectionNotAvailable ∧
    (signIn envC7 initialAuthState).state =
      { token := none, userData := none, isLoading := false } :=
  claim_C7_configError envC7 initialAuthState rfl (Or.inl rfl) rfl

theorem aux_signIn_cases (env : Env) (prev : AuthState) :
    (signIn env prev).error = none ∨
    (signIn env prev).state =
      { token := prev.token, userData := prev.userData, isLoading := false } := by
  unfold signIn
  split
  · cases hemb : embeddedAttempt env with
    | some s => simp
    | none =>
      rcases aux_browserPath_cases env (signInStart prev) with h0 | hstate
      · exact Or.inl h0
      · exact Or.inr (by rw [hstate]; rfl)
  · rcases aux_browserPath_cases env (signInStart prev) with h0 | hstate
    · exact Or.inl h0
    · exact Or.inr (by rw [hstate]; rfl)

/-- C10: whenever `signIn` ends in a thrown error, `token` and `userData`
keep their values from before the invocation and only `isLoading` is
reset to `false`. -/
theorem claim_C10_frame (env : Env) (prev : AuthState) (e : AuthError)
    (h : (signIn env prev).error = some e) :
    (signIn env prev).state =
      { token := prev.token, userData := prev.userData, isLoading := false } := by
  rcases aux_signIn_cases env prev with h0 | hstate
  · rw [h0] at h; exact absurd h (by simp)
  · exact hstate

def prevC10 : AuthState :=
  { token := some "oldToken", userData := some { fid := some 7, address := some "0xA" }
    isLoading := false }

/-- C10 witness: a failed invocation leaves a previously held token and
identity in place. -/
theorem claim_C10_witness :
    (signIn envC7 prevC10).state =
      { token := prevC10.token, userData := prevC10.userData, isLoading := false } :=
  claim_C10_frame envC7 prevC10 AuthError.walletConnectionNotAvailable (by decide)

/-- C1: on the embedded path, when the host sign-in yields a message and
signature and the backend verification responds ok, `signIn` resolves
(no error), never reaches the browser path, and sets
`token = signature`,
`userData = { fid := data.fid, address := local address if obtained else data.address }`
and `isLoading = false`.  Wallet addresses are assumed non-empty (an
empty string is falsy for the `||` of line 107). -/
theorem claim_C1_embeddedSuccess (env : Env) (prev : AuthState) (r : HostSignInResult)
    (data : BackendData)
    (hm : env.isMiniapp = true)
    (hhost : env.hostSignIn = .ok r)
    (hfetch : env.embeddedFetch = .response true data)
    (haddr : embeddedWalletAddress env.ethAccounts = none ∨
      ∃ w, embeddedWalletAddress env.ethAccounts = some w ∧ w ≠ "") :
    (signIn env prev).error = none ∧
    (signIn env prev).tookBrowserPath = false ∧
    (signIn env prev).state =
      { token := some r.signature
        userData := some
          { fid := data.fid
            address := if (embeddedWalletAddress env.ethAccounts).isSome
              then embeddedWalletAddress env.ethAccounts else data.address }
        isLoading := false } := by
  have hemb : embeddedAttempt env = some
      { token := some r.signature
        userData := some
          { fid := data.fid
            address := if (embeddedWalletAddress env.ethAccounts).isSome
              then embeddedWalletAddress env.ethAccounts else data.address }
        isLoading := false } := by
    unfold embeddedAttempt
    rw [hhost, hfetch]
    rcases haddr with h | ⟨w, h, hw⟩
    · simp [h, jsOrOpt, truthy]
    · simp [h, jsOrOpt, truthy, hw]
  simp [signIn, hm, hemb]

def envC1 : Env :=
  { isMiniapp := true
    ethAccounts := .ok (some ["0xAAA"])
    hostSignIn := .ok { message := "m", signature := "sig1" }
    embeddedFetch := .response true { token := none, fid := some 42, address := none }
    isConnected := false
    address0 := none
    appKitOpenAvailable := false
    polls := fun _ => none
    signMessage := .error "unused"
    browserFetch := .netError "unused" }

/-- C1 witness: the spec scenario — host returns `{m, sig1}`, accounts
`["0xAAA"]`, backend `{fid: 42}` with 200. -/
theorem claim_C1_witness :
    (signIn envC1 initialAuthState).error = none ∧
    (signIn envC1 initialAuthState).tookBrowserPath = false ∧
    (signIn envC1 initialAuthState).state =
      { token := some "sig1"
        userData := some { fid := some 42, address := some "0xAAA" }
        isLoading := false } := by
  have h := claim_C1_embeddedSuccess envC1 initialAuthState
    { message := "m", signature := "sig1" }
    { token := none, fid := some 42, address := none }
    rfl rfl rfl (Or.inr ⟨"0xAAA", by decide, by decide⟩)
  simpa [envC1, embeddedWalletAddress] using h

/-- C2: on the embedded path, a failure of the account-address request
alone is swallowed (the embedded path still succeeds and never reaches
the browser path), while a failure of the host sign-in or of the backend
verification (rejection or non-2xx) makes `signIn` continue into the
browser path: the whole outcome is that of the browser path, so the
caller sees an error iff the fallback itself fails. -/
theorem claim_C2_fallback (env : Env) (prev : AuthState) (hm : env.isMiniapp = true) :
    ((∀ e r data, env.ethAccounts = .error e → env.hostSignIn = .ok r →
        env.embeddedFetch = .response true data →
        (signIn env prev).error = none ∧ (signIn env prev).tookBrowserPath = false) ∧
     (embeddedFails env →
        signIn env prev = browserPath env (signInStart prev) ∧
        ((signIn env prev).error = none ↔
          (browserPath env (signInStart prev)).error = none))) := by
  constructor
  · intro e r data hacc hhost hfetch
    have hemb : ∃ s, embeddedAttempt env = some s := by
      unfold embeddedAttempt
      rw [hhost, hfetch]
      simp
    rcases hemb with ⟨s, hemb⟩
    simp [signIn, hm, hemb]
  · intro hfail
    have hemb := aux_embeddedAttempt_none env hfail
    have heq : signIn env prev = browserPath env (signInStart prev) := by
      simp [signIn, hm, hemb]
    exact ⟨heq, by rw [heq]⟩

def envC2 : Env :=
  { isMiniapp := true
    ethAccounts := .ok (some ["0xAAA"])
    hostSignIn := .error "hostfail"
    embeddedFetch := .netError "unused"
    isConnected := false
    address0 := none
    appKitOpenAvailable := false
    polls := fun _ => none
    signMessage := .error "unused"
    browserFetch := .netError "unused" }

/-- C2 witness: a failing host sign-in makes the whole invocation equal
to the browser path run from the loading state. -/
theorem claim_C2_witness :
    signIn envC2 initialAuthState = browserPath envC2 (signInStart initialAuthState) :=
  ((claim_C2_fallback envC2 initialAuthState rfl).2 (Or.inl ⟨"hostfail", rfl⟩)).1

theorem aux_afterConnect_proceeds (env : Env) (s1 : AuthState) (cur : Option String)
    (opened : Bool) (attempts : Nat) (h : truthy cur = true) :
    (afterConnect env s1 cur opened attempts).signRequested = true ∧
    (afterConnect env s1 cur opened attempts).error ≠
      some AuthError.walletConnectionFailed := by
  unfold afterConnect throwOutcome
  rw [h]
  simp only [Bool.not_true, Bool.false_eq_true, if_false]
  repeat' split
  all_goals simp

/-- C3: in the browser path with no address available and the connector
UI opened, the polling loop runs at most 100 attempts; if every poll is
still absent, `signIn` throws the wallet-connection-failed error after
exactly 100 attempts; and if poll `k` is the first to return an address,
polling stops after `k + 1` attempts and the path proceeds to the
signature request instead of throwing that error. -/
theorem claim_C3_polling (env : Env) (prev : AuthState)
    (hm : env.isMiniapp = false)
    (haddr : truthy env.address0 = false)
    (hopen : env.appKitOpenAvailable = true) :
    (signIn env prev).pollAttempts ≤ 100 ∧
    ((∀ i, i < 100 → truthy (env.polls i) = false) →
      (signIn env prev).error = some AuthError.walletConnectionFailed ∧
      (signIn env prev).pollAttempts = 100) ∧
    (∀ k, k < 100 → (∀ j, j < k → truthy (env.polls j) = false) →
      truthy (env.polls k) = true →
      (signIn env prev).pollAttempts = k + 1 ∧
      (signIn env prev).error ≠ some AuthError.walletConnectionFailed ∧
      (signIn env prev).signRequested = true) := by
  have hred : signIn env prev =
      browserAfterPoll env (signInStart prev) (pollLoop env.polls 100 0 env.address0) := by
    simp [signIn, hm, browserPath, haddr, hopen]
  rw [hred]
  refine ⟨?_, ?_, ?_⟩
  · have hle := aux_pollLoop_le env.polls 100 0 env.address0
    unfold browserAfterPoll throwOutcome
    split
    · rw [aux_afterConnect_pollAttempts]; simpa using hle
    · simpa using hle
  · intro hall
    have h2 := aux_pollLoop_allFalsy env.polls 100 0 env.address0 haddr
      (fun i _ hi => hall i (by omega))
    unfold browserAfterPoll throwOutcome
    rw [h2.1]
    simp [h2.2]
  · intro k hk hbefore hhit
    have h3 : pollLoop env.polls 100 0 env.address0 = (env.polls k, k + 1) := by
      have := aux_pollLoop_hit env.polls k 100 0 env.address0 haddr hk
        (fun j hj => by simpa using hbefore j hj) (by simpa using hhit)
      simpa using this
    rw [h3]
    unfold browserAfterPoll
    rw [hhit]
    simp only [if_true]
    refine ⟨aux_afterConnect_pollAttempts .., ?_, ?_⟩
    · exact (aux_afterConnect_proceeds env (signInStart prev) (env.polls k) true (k + 1) hhit).2
    · exact (aux_afterConnect_proceeds env (signInStart prev) (env.polls k) true (k + 1) hhit).1

def envC3 : Env :=
  { isMiniapp := false
    ethAccounts := .ok none
    hostSignIn := .error "unused"
    embeddedFetch := .netError "unused"
    isConnected := false
    address0 := none
    appKitOpenAvailable := true
    polls := fun _ => none
    signMessage := .error "unused"
    browserFetch := .netError "unused" }

/-- C3 witness: with the address never becoming available, `signIn`
throws the wallet-connection-failed error after exactly 100 polls. -/
theorem claim_C3_witness :
    (signIn envC3 initialAuthState).error = some AuthError.walletConnectionFailed ∧
    (signIn envC3 initialAuthState).pollAttempts = 100 :=
  (claim_C3_polling envC3 initialAuthState rfl rfl rfl).2.1 (fun _ _ => rfl)

/-- C8: at the browser path's convergence point (reached with a truthy
address, both directly and after polling), an ok backend response with
body `data` stores `token = data.token` when the backend provided one
(non-empty, as line 172 uses `||`) and `token = signature` otherwise,
with `isLoading = false` in the same resulting state and no error. -/
theorem claim_C8_browserToken (env : Env) (s1 : AuthState) (cur : Option String)
    (opened : Bool) (attempts : Nat) (sig : String) (data : BackendData)
    (hcur : truthy cur = true)
    (hsign : env.signMessage = .ok sig)
    (hfetch : env.browserFetch = .response true data)
    (htok : data.token = none ∨ ∃ t, data.token = some t ∧ t ≠ "") :
    (afterConnect env s1 cur opened attempts).state.token =
      some (data.token.getD sig) ∧
    (afterConnect env s1 cur opened attempts).state.isLoading = false ∧
    (afterConnect env s1 cur opened attempts).error = none := by
  unfold afterConnect
  rw [hcur, hsign, hfetch]
  simp only [Bool.not_true, Bool.false_eq_true, if_false, if_true]
  rcases htok with h | ⟨t, h, ht⟩
  · simp [h, jsOrStr]
  · simp [h, jsOrStr, ht]

def envC8 : Env :=
  { isMiniapp := false
    ethAccounts := .ok none
    hostSignIn := .error "unused"
    embeddedFetch := .netError "unused"
    isConnected := true
    address0 := some "0xBBB"
    appKitOpenAvailable := true
    polls := fun _ => none
    signMessage := .ok "sig2"
    browserFetch := .response true { token := none, fid := none, address := none } }

/-- C8 witness: backend body `{}` with 200 — the signature becomes the
token. -/
theorem claim_C8_witness :
    (afterConnect envC8 (signInStart initialAuthState) (some "0xBBB") false 0).state.token =
      some "sig2" ∧
    (afterConnect envC8 (signInStart initialAuthState) (some "0xBBB") false 0).state.isLoading =
      false := by
  have h := claim_C8_browserToken envC8 (signInStart initialAuthState) (some "0xBBB")
    false 0 "sig2" { token := none, fid := none, address := none }
    (by decide) rfl rfl (Or.inl rfl)
  exact ⟨by simpa using h.1, h.2.1⟩

def envC9 : Env :=
  { isMiniapp := false
    ethAccounts := .ok none
    hostSignIn := .error "unused"
    embeddedFetch := .netError "unused"
    isConnected := true
    address0 := some "0xBBB"
    appKitOpenAvailable := true
    polls := fun _ => none
    signMessage := .ok "sig2"
    browserFetch := .response true { token := none, fid := none, address := some "0xEVIL" } }

/-- C9 counterexample: in the browser path the claim fails — connected
wallet address `0xBBB`, backend body containing `address: "0xEVIL"`:
the spread of line 176 places the backend fields after
`address: currentAddress`, so the stored identity address is the
backend's, not the locally obtained one. -/
theorem claim_C9_counterexample :
    (signIn envC9 initialAuthState).error = none ∧
    (signIn envC9 initialAuthState).state.userData =
      some { fid := none, address := some "0xEVIL" } ∧
    ¬((signIn envC9 initialAuthState).state.userData =
      some { fid := none, address := some "0xBBB" }) := by
  refine ⟨?_, ?_, ?_⟩ <;> decide

/-- C9 amended: the backend address is only a fallback in the embedded
path (a truthy locally obtained address wins); in the browser path the
backend fields are spread after the local address, so a backend-supplied
address overrides it and the local address is stored only when the
backend response has no address field. -/
theorem claim_C9_amended :
    (∀ (env : Env) (prev : AuthState) (r : HostSignInResult) (data : BackendData)
      (w : String),
      env.isMiniapp = true → env.hostSignIn = .ok r →
      env.embeddedFetch = .response true data →
      embeddedWalletAddress env.ethAccounts = some w → w ≠ "" →
      ∃ u, (signIn env prev).state.userData = some u ∧ u.address = some w) ∧
    (∀ (env : Env) (s1 : AuthState) (cur : Option String) (opened : Bool)
      (attempts : Nat) (sig : String) (data : BackendData),
      truthy cur = true → env.signMessage = .ok sig →
      env.browserFetch = .response true data →
      ∃ u, (afterConnect env s1 cur opened attempts).state.userData = some u ∧
        u.address = some (data.address.getD (cur.getD ""))) := by
  constructor
  · intro env prev r data w hm hhost hfetch hw hne
    have hemb : embeddedAttempt env = some
        { token := some r.signature
          userData := some { fid := data.fid, address := some w }
          isLoading := false } := by
      unfold embeddedAttempt
      rw [hhost, hfetch, hw]
      simp [jsOrOpt, truthy, hne]
    refine ⟨{ fid := data.fid, address := some w }, ?_, rfl⟩
    simp [signIn, hm, hemb]
  · intro env s1 cur opened attempts sig data hcur hsign hfetch
    refine ⟨{ fid := data.fid, address := some (data.address.getD (cur.getD "")) }, ?_, rfl⟩
    unfold afterConnect
    rw [hcur, hsign, hfetch]
    simp

def envC9e : Env :=
  { isMiniapp := true
    ethAccounts := .ok (some ["0xAAA"])
    hostSignIn := .ok { message := "m", signature := "s" }
    embeddedFetch := .response true { token := none, fid := none, address := some "0xZZZ" }
    isConnected := false
    address0 := none
    appKitOpenAvailable := false
    polls := fun _ => none
    signMessage := .error "unused"
    browserFetch := .netError "unused" }

/-- C9 amended witness: embedded path keeps the local address `0xAAA`
over the backend's `0xZZZ`; browser path stores the backend's `0xEVIL`
over the local `0xBBB`. -/
theorem claim_C9_witness :
    (∃ u, (signIn envC9e initialAuthState).state.userData = some u ∧
      u.address = some "0xAAA") ∧
    (∃ u, (afterConnect envC9 (signInStart initialAuthState) (some "0xBBB") false 0).state.userData =
        some u ∧ u.address = some "0xEVIL") := by
  constructor
  · exact claim_C9_amended.1 envC9e initialAuthState
      { message := "m", signature := "s" }
      { token := none, fid := none, address := some "0xZZZ" } "0xAAA"
      rfl rfl rfl (by decide) (by decide)
  · have h := claim_C9_amended.2 envC9 (signInStart initialAuthState) (some "0xBBB")
      false 0 "sig2" { token := none, fid := none, address := some "0xEVIL" }
      (by decide) rfl rfl
    simpa using h

end QuickAuth
